import Mathlib

/-!
Verification of the `botobackoff` retry/backoff wrapper.

The Python source (`botobackoff/botobackoff.py`) provides:
  * `DEFAULT_RETRY_ERROR_CODES` — the built-in retryable error-code table;
  * `botobackoff(...)` — a decorator whose inner `deco` builds the retry /
    ignore code lists and whose `retry_func` is the retry loop;
  * class `BotoBackoff` — a proxy over a boto3 client with `with_options`
    (derive a sibling proxy) and `__getattr__` (attribute interception).

This file shallowly embeds those pieces:
  * Python's `ClientError` and other exceptions become `PyException`;
  * the underlying client method becomes a call-indexed oracle
    `f : ℕ → Except PyException α` (call `k` is the `k`-th invocation);
  * `random.uniform(-jitter, jitter)` becomes a stream `u : ℕ → ℚ` of draws;
  * `time.sleep` is recorded in an explicit list of applied delays;
  * Python floats are modelled as rationals;
  * `__getattr__`'s in-place `retry_on.extend(...)` on the aliased
    `self._added_backoff_error_codes` list is modelled by returning the
    updated proxy state alongside the access result.
-/

/-- The built-in retryable error codes, `DEFAULT_RETRY_ERROR_CODES`
(botobackoff.py lines 13-27). -/
def DEFAULT_RETRY_ERROR_CODES : List String :=
  [ "ThrottlingException",
    "TooManyRequestsException",
    "ServiceUnavailableException",
    "RequestLimitExceeded",
    "RequestThrottled",
    "RequestThrottledException",
    "ProvisionedThroughputExceededException",
    "LimitExceededException",
    "EndpointConnectionError",
    "ConnectTimeoutError",
    "Unavailable",
    "InternalFailure",
    "InternalError" ]

/-- A botocore `ClientError`: `e.response['Error']['Code']` is `code`,
`e.response['Error']['Message']` is `message`.  Equality of two values of
this structure models "the same error object: same type, code and message". -/
structure ClientError where
  operationName : String
  code : String
  message : String
deriving DecidableEq

/-- An exception raised by the underlying call: either a structured
`ClientError` (the only type caught by `except ClientError` in
`retry_func`), or any other exception, opaque to the wrapper. -/
inductive PyException where
  | clientError (e : ClientError)
  | other (name : String)
deriving DecidableEq

/-- The configuration captured by the decorator closure `deco`
(botobackoff.py lines 139-163): the numeric parameters plus the two code
lists `retry_on` and `ignore_on` built at decoration time. -/
structure RetryConfig where
  interval_seconds : ℚ
  max_retries : ℕ
  backoff_rate : ℚ
  jitter : ℚ
  max_retries_before_backoff : ℕ
  retry_on : List String
  ignore_on : List String
deriving DecidableEq

/-- Python's `xs or d` on a list: `xs` if non-empty, else `d`
(an empty list is falsy). `None` arguments are modelled as `[]`. -/
def py_list_or (xs d : List String) : List String :=
  if xs = [] then d else xs

/-- The body of `deco` (botobackoff.py lines 160-163):
`retry_on = added_error_codes or []; retry_on.extend(DEFAULT_RETRY_ERROR_CODES);
ignore_on = ignore_error_codes or []`. -/
def deco_config (interval_seconds : ℚ) (max_retries : ℕ) (backoff_rate jitter : ℚ)
    (max_retries_before_backoff : ℕ)
    (ignore_error_codes added_error_codes : List String) : RetryConfig :=
  { interval_seconds := interval_seconds
    max_retries := max_retries
    backoff_rate := backoff_rate
    jitter := jitter
    max_retries_before_backoff := max_retries_before_backoff
    retry_on := py_list_or added_error_codes [] ++ DEFAULT_RETRY_ERROR_CODES
    ignore_on := py_list_or ignore_error_codes [] }

/-- The sleep duration computed at botobackoff.py lines 180-182:
`interval_seconds * backoff_rate ** (_attempts - max_retries_before_backoff)
* (1 + random.uniform(-jitter, jitter))`, with `u` the value drawn by
`random.uniform`.  The loop only evaluates this with
`_attempts > max_retries_before_backoff`, where the truncated natural
subtraction in the exponent agrees with Python's integer subtraction. -/
def sleep_time (cfg : RetryConfig) (attempts : ℕ) (u : ℚ) : ℚ :=
  cfg.interval_seconds * cfg.backoff_rate ^ (attempts - cfg.max_retries_before_backoff) * (1 + u)

/-- The retry loop `retry_func` (botobackoff.py lines 166-187), one loop
iteration per recursive step.  `f calls` is the outcome of the next
underlying invocation, `u calls` the jitter draw made on that iteration,
`attempts` the current value of `_attempts`, `calls` the number of
underlying invocations made so far, and `sleeps` the delays applied so far.
Returns the call outcome (`.ok (some v)` for a success, `.ok none` for an
ignored error, `.error e` for a raised exception) together with the total
number of underlying invocations and the list of applied delays.
Termination: each retry step increments `_attempts`, which the guard
bounds by `max_retries`. -/
def retry_func {α : Type} (cfg : RetryConfig) (f : ℕ → Except PyException α)
    (u : ℕ → ℚ) (attempts calls : ℕ) (sleeps : List ℚ) :
    Except PyException (Option α) × ℕ × List ℚ :=
  match f calls with
  | .ok v => (.ok (some v), calls + 1, sleeps)
  | .error e =>
    match e with
    | .other n => (.error (.other n), calls + 1, sleeps)
    | .clientError ce =>
      if ce.code ∈ cfg.ignore_on then
        (.ok none, calls + 1, sleeps)
      else if h : ce.code ∈ cfg.retry_on ∧ ¬ attempts > cfg.max_retries then
        retry_func cfg f u (attempts + 1) (calls + 1)
          (if attempts > cfg.max_retries_before_backoff
           then sleeps ++ [sleep_time cfg attempts (u calls)]
           else sleeps)
      else (.error (.clientError ce), calls + 1, sleeps)
termination_by cfg.max_retries + 1 - attempts
decreasing_by omega

/-- A decorated function entered from the top: `_attempts = 0`, no calls
made, no sleeps performed (botobackoff.py line 167). -/
def run_retry {α : Type} (cfg : RetryConfig) (f : ℕ → Except PyException α)
    (u : ℕ → ℚ) : Except PyException (Option α) × ℕ × List ℚ :=
  retry_func cfg f u 0 0 []

/-- Python's `x or d` for an optional rational parameter (`None` ↦ `none`):
`0` and `0.0` are falsy, so they fall back to `d` exactly like `None`. -/
def py_rat_or (x : Option ℚ) (d : ℚ) : ℚ :=
  match x with
  | none => d
  | some v => if v = 0 then d else v

/-- Python's `x or d` for an optional integer parameter: `0` is falsy. -/
def py_nat_or (x : Option ℕ) (d : ℕ) : ℕ :=
  match x with
  | none => d
  | some v => if v = 0 then d else v

/-- Python's `x or d` for an optional list parameter: `[]` is falsy. -/
def py_opt_list_or (x : Option (List String)) (d : List String) : List String :=
  match x with
  | none => d
  | some v => if v = [] then d else v

/-- The configuration state of a `BotoBackoff` proxy (botobackoff.py lines
65-74).  The underlying client is modelled separately (see `PyAttr`); the
proxy state is exactly the fields set by `__init__`. -/
structure BotoBackoff where
  interval_seconds : ℚ
  max_retries : ℕ
  backoff_rate : ℚ
  jitter : ℚ
  max_retries_before_backoff : ℕ
  added_backoff_error_codes : List String
  ignore_errors : List String
deriving DecidableEq

/-- `BotoBackoff.with_options` (botobackoff.py lines 76-100): builds a new
proxy over the same client; every override uses Python `or`, so a falsy
override (`None`, `0`, `0.0`, `[]`) falls back to the parent's value.  The
constructor re-applies `or []` to the two lists, which is the identity on
the values produced here. -/
def with_options (b : BotoBackoff) (interval_seconds : Option ℚ)
    (max_retries : Option ℕ) (backoff_rate jitter : Option ℚ)
    (max_retries_before_backoff : Option ℕ)
    (ignore_error_codes added_error_codes : Option (List String)) : BotoBackoff :=
  { interval_seconds := py_rat_or interval_seconds b.interval_seconds
    max_retries := py_nat_or max_retries b.max_retries
    backoff_rate := py_rat_or backoff_rate b.backoff_rate
    jitter := py_rat_or jitter b.jitter
    max_retries_before_backoff := py_nat_or max_retries_before_backoff b.max_retries_before_backoff
    added_backoff_error_codes := py_opt_list_or added_error_codes b.added_backoff_error_codes
    ignore_errors := py_opt_list_or ignore_error_codes b.ignore_errors }

/-- An attribute of the underlying boto3 client as seen through
`getattr(self._client, item)`: either a non-callable value or a callable
method. -/
inductive PyAttr (α : Type) where
  | value (v : α)
  | method
deriving DecidableEq

/-- The result of `BotoBackoff.__getattr__`: a non-callable attribute is
returned unchanged (`passthrough`), a callable is wrapped by the
`botobackoff` decorator and is governed by the `RetryConfig` that `deco`
builds from the proxy's fields (`wrapped`). -/
inductive GetattrResult (α : Type) where
  | passthrough (v : α)
  | wrapped (cfg : RetryConfig)
deriving DecidableEq

/-- `BotoBackoff.__getattr__` (botobackoff.py lines 102-125) together with
its side effect on the proxy.  For a callable attribute the decorator runs
`deco` (lines 160-163): `retry_on = added_error_codes or []` aliases
`self._added_backoff_error_codes` when that list is non-empty, and
`retry_on.extend(DEFAULT_RETRY_ERROR_CODES)` then mutates the proxy's list
in place; when the list is empty, `or` yields a fresh list and the proxy is
untouched.  The second component is the proxy state after the access. -/
def getattr_proxy {α : Type} (client : String → PyAttr α) (b : BotoBackoff)
    (item : String) : GetattrResult α × BotoBackoff :=
  match client item with
  | .value v => (.passthrough v, b)
  | .method =>
    (.wrapped (deco_config b.interval_seconds b.max_retries b.backoff_rate
        b.jitter b.max_retries_before_backoff b.ignore_errors
        b.added_backoff_error_codes),
     { b with added_backoff_error_codes :=
        if b.added_backoff_error_codes = [] then b.added_backoff_error_codes
        else b.added_backoff_error_codes ++ DEFAULT_RETRY_ERROR_CODES })

/-! ## Helper lemmas about the retry loop -/

/-- Every entry into the loop performs at least one further underlying
call: the invocation counter strictly increases. -/
lemma retry_func_calls_lt {α : Type} (cfg : RetryConfig) (f : ℕ → Except PyException α)
    (u : ℕ → ℚ) : ∀ attempts calls sleeps,
    calls < (retry_func cfg f u attempts calls sleeps).2.1 := by
  intro attempts calls sleeps
  induction attempts, calls, sleeps using retry_func.induct cfg f u with
  | case1 a c s v hf => rw [retry_func, hf]; exact Nat.lt_succ_self c
  | case2 a c s n hf => rw [retry_func, hf]; exact Nat.lt_succ_self c
  | case3 a c s ce hig hf => rw [retry_func, hf]; simp [hig]
  | case4 a c s ce hig hcond hf ih =>
    rw [retry_func, hf]
    simp only [if_neg hig, dif_pos hcond]
    simp only [dite_eq_ite] at ih
    omega
  | case5 a c s ce hig hcond hf =>
    rw [retry_func, hf]
    simp only [if_neg hig, dif_neg hcond]
    exact Nat.lt_succ_self c

/-- When the underlying call always fails with the same retryable,
non-ignored `ClientError`, the loop started with `attempts + k =
max_retries + 1` makes exactly `k + 1` further calls and then raises that
error. -/
lemma retry_func_always_fail {α : Type} (cfg : RetryConfig) (ce : ClientError)
    (u : ℕ → ℚ) (hig : ce.code ∉ cfg.ignore_on) (hre : ce.code ∈ cfg.retry_on) :
    ∀ k attempts calls sleeps, attempts + k = cfg.max_retries + 1 →
      ∃ s, retry_func cfg (fun _ => (.error (.clientError ce) : Except PyException α))
          u attempts calls sleeps = (.error (.clientError ce), calls + k + 1, s) := by
  intro k
  induction k with
  | zero =>
    intro attempts calls sleeps h
    refine ⟨sleeps, ?_⟩
    have hnc : ¬ (ce.code ∈ cfg.retry_on ∧ ¬ attempts > cfg.max_retries) := by
      push_neg
      intro _
      omega
    rw [retry_func]
    simp only [if_neg hig, dif_neg hnc]
  | succ k ih =>
    intro attempts calls sleeps h
    have hcond : ce.code ∈ cfg.retry_on ∧ ¬ attempts > cfg.max_retries := ⟨hre, by omega⟩
    rw [retry_func]
    simp only [if_neg hig, dif_pos hcond]
    obtain ⟨s, hs⟩ := ih (attempts + 1) (calls + 1)
      (if attempts > cfg.max_retries_before_backoff
       then sleeps ++ [sleep_time cfg attempts (u calls)] else sleeps) (by omega)
    refine ⟨s, ?_⟩
    rw [hs]
    congr 2
    omega

/-- Every delay the loop appends comes from `sleep_time` at some attempt
index strictly greater than `max_retries_before_backoff`. -/
lemma retry_func_sleeps_spec {α : Type} (cfg : RetryConfig) (f : ℕ → Except PyException α)
    (u : ℕ → ℚ) : ∀ attempts calls sleeps,
    ∀ d ∈ (retry_func cfg f u attempts calls sleeps).2.2,
      d ∈ sleeps ∨ ∃ n att, cfg.max_retries_before_backoff < att ∧ d = sleep_time cfg att (u n) := by
  intro attempts calls sleeps
  induction attempts, calls, sleeps using retry_func.induct cfg f u with
  | case1 a c s v hf => rw [retry_func, hf]; exact fun d hd => Or.inl hd
  | case2 a c s n hf => rw [retry_func, hf]; exact fun d hd => Or.inl hd
  | case3 a c s ce hig hf =>
    rw [retry_func, hf]
    simp only [if_pos hig]
    exact fun d hd => Or.inl hd
  | case4 a c s ce hig hcond hf ih =>
    rw [retry_func, hf]
    simp only [if_neg hig, dif_pos hcond]
    intro d hd
    rcases ih d hd with hmem | hnew
    · rw [dite_eq_ite] at hmem
      by_cases hb : a > cfg.max_retries_before_backoff
      · rw [if_pos hb] at hmem
        rcases List.mem_append.1 hmem with h1 | h2
        · exact Or.inl h1
        · exact Or.inr ⟨c, a, hb, List.mem_singleton.1 h2⟩
      · rw [if_neg hb] at hmem
        exact Or.inl hmem
    · exact Or.inr hnew
  | case5 a c s ce hig hcond hf =>
    rw [retry_func, hf]
    simp only [if_neg hig, dif_neg hcond]
    exact fun d hd => Or.inl hd

/-! ## Concrete fixtures used by witnesses and counterexamples -/

/-- A `ClientError` carrying the built-in retryable code
`ThrottlingException`. -/
def ceThrottling : ClientError :=
  { operationName := "list_buckets", code := "ThrottlingException", message := "Rate exceeded" }

/-- A `ClientError` carrying the non-retryable code `AccessDenied`
(as in the repository's own tests). -/
def ceAccessDenied : ClientError :=
  { operationName := "list_buckets", code := "AccessDenied", message := "Access Denied" }

/-- The decorator's default configuration: `interval_seconds=0.2`,
`max_retries=3`, `backoff_rate=2`, `jitter=0.5`,
`max_retries_before_backoff=0`, no ignored or added codes. -/
def cfgDefault : RetryConfig := deco_config (1/5) 3 2 (1/2) 0 [] []

/-- The default configuration with `max_retries = 1`, as in the
repository's `test__botobackoff_retry_once`. -/
def cfgRetryOnce : RetryConfig := deco_config (1/5) 1 2 (1/2) 0 [] []

/-- The default configuration with `max_retries = 0`. -/
def cfgZeroRetries : RetryConfig := deco_config (1/5) 0 2 (1/2) 0 [] []

/-- A configuration whose ignored list contains `RequestLimitExceeded`,
which is also in the built-in retryable table. -/
def cfgIgnoreRLE : RetryConfig := deco_config (1/5) 3 2 (1/2) 0 ["RequestLimitExceeded"] []

/-- A `ClientError` carrying the code `RequestLimitExceeded`, which is both
built-in retryable and, for `cfgIgnoreRLE`, ignored. -/
def ceRLE : ClientError :=
  { operationName := "list_buckets", code := "RequestLimitExceeded", message := "limit" }

/-- An underlying call that always fails with `ThrottlingException`. -/
def alwaysThrottle : ℕ → Except PyException ℕ :=
  fun _ => .error (.clientError ceThrottling)

/-! ## Claims -/

/-- C1: the retry loop evaluates the boundary check
`_attempts <= max_retries` before incrementing the counter (see the guard
in `retry_func`), so when the underlying call always fails with a
retryable, non-ignored error code, exactly `max_retries + 2` underlying
calls are made and the loop then terminates by raising the original
error. -/
theorem C1_worst_case_calls {α : Type} (cfg : RetryConfig) (ce : ClientError)
    (u : ℕ → ℚ) (f : ℕ → Except PyException α)
    (hf : ∀ n, f n = .error (.clientError ce))
    (hig : ce.code ∉ cfg.ignore_on) (hre : ce.code ∈ cfg.retry_on) :
    (run_retry cfg f u).1 = .error (.clientError ce) ∧
    (run_retry cfg f u).2.1 = cfg.max_retries + 2 := by
  have hfe : f = fun _ => (.error (.clientError ce) : Except PyException α) := funext hf
  subst hfe
  obtain ⟨s, hs⟩ := retry_func_always_fail cfg ce u hig hre (cfg.max_retries + 1) 0 0 [] (by omega)
  rw [run_retry, hs]
  refine ⟨rfl, ?_⟩
  show 0 + (cfg.max_retries + 1) + 1 = cfg.max_retries + 2
  omega

/-- C1 witness: with the default configuration restricted to
`max_retries = 1` and an underlying call that always raises
`ThrottlingException`, the proxy makes exactly `1 + 2 = 3` calls and
raises that error. -/
theorem C1_worst_case_calls_witness :
    (run_retry cfgRetryOnce alwaysThrottle (fun _ => 0)).1
        = .error (.clientError ceThrottling) ∧
    (run_retry cfgRetryOnce alwaysThrottle (fun _ => 0)).2.1
        = cfgRetryOnce.max_retries + 2 :=
  C1_worst_case_calls cfgRetryOnce ceThrottling (fun _ => 0) alwaysThrottle
    (fun _ => rfl) (by decide) (by decide)

/-- C2: an error code in `ignore_on` makes the call return `None` after
exactly one underlying invocation with no sleep, regardless of whether the
code is also retryable (the ignore check precedes the retry check in
`retry_func`). -/
theorem C2_ignore_precedence {α : Type} (cfg : RetryConfig) (ce : ClientError)
    (f : ℕ → Except PyException α) (u : ℕ → ℚ)
    (hig : ce.code ∈ cfg.ignore_on) (hf : f 0 = .error (.clientError ce)) :
    run_retry cfg f u = (.ok none, 1, []) := by
  rw [run_retry, retry_func, hf]
  simp [hig]

/-- C2 witness: `RequestLimitExceeded` is in the built-in retryable table
and in `cfgIgnoreRLE`'s ignored list; an underlying call failing with it
yields `None` after one invocation and no sleep. -/
theorem C2_ignore_precedence_witness :
    ceRLE.code ∈ cfgIgnoreRLE.retry_on ∧
    run_retry cfgIgnoreRLE (fun _ => (.error (.clientError ceRLE) : Except PyException ℕ))
        (fun _ => 0) = (.ok none, 1, []) :=
  ⟨by decide,
   C2_ignore_precedence cfgIgnoreRLE ceRLE _ (fun _ => 0) (by decide) rfl⟩

/-- C4: an error code neither ignored nor retryable is re-raised unchanged
(the very same `ClientError`, hence same type, code and message) after
exactly one underlying invocation, with no sleep and no retry. -/
theorem C4_propagate_unchanged {α : Type} (cfg : RetryConfig) (ce : ClientError)
    (f : ℕ → Except PyException α) (u : ℕ → ℚ)
    (hig : ce.code ∉ cfg.ignore_on) (hre : ce.code ∉ cfg.retry_on)
    (hf : f 0 = .error (.clientError ce)) :
    run_retry cfg f u = (.error (.clientError ce), 1, []) := by
  rw [run_retry, retry_func, hf]
  simp [hig, hre]

/-- C4 witness: `AccessDenied` under the default configuration with
`max_retries = 1` propagates unchanged after exactly one invocation, as in
the repository's `test__unhandled_error`. -/
theorem C4_propagate_unchanged_witness :
    run_retry cfgRetryOnce (fun _ => (.error (.clientError ceAccessDenied) : Except PyException ℕ))
        (fun _ => 0) = (.error (.clientError ceAccessDenied), 1, []) :=
  C4_propagate_unchanged cfgRetryOnce ceAccessDenied _ (fun _ => 0)
    (by decide) (by decide) rfl

/-- C6 counterexample: with `max_retries = 0` and an underlying call that
always fails with the retryable, non-ignored code `ThrottlingException`,
the loop makes 2 underlying calls, not `max_retries + 1 = 1`: the guard
`not _attempts > max_retries` is checked before `_attempts += 1`, so after
the first failure `_attempts = 0 ≤ 0` still allows a retry. -/
theorem C6_total_attempts_counterexample :
    (run_retry cfgZeroRetries alwaysThrottle (fun _ => 0)).2.1 = 2 ∧
    cfgZeroRetries.max_retries + 1 ≠ 2 := by
  constructor
  · simp [run_retry, retry_func, cfgZeroRetries, deco_config, py_list_or,
      DEFAULT_RETRY_ERROR_CODES, alwaysThrottle, ceThrottling]
  · decide

/-- C6 amended: when the underlying call always fails with a retryable,
non-ignored error code, the total number of underlying attempts is
`max_retries + 2` — the initial call plus `max_retries + 1` retry
attempts (one more than the claim's `max_retries`). -/
theorem C6_total_attempts_amended {α : Type} (cfg : RetryConfig) (ce : ClientError)
    (u : ℕ → ℚ) (f : ℕ → Except PyException α)
    (hf : ∀ n, f n = .error (.clientError ce))
    (hig : ce.code ∉ cfg.ignore_on) (hre : ce.code ∈ cfg.retry_on) :
    (run_retry cfg f u).2.1 = 1 + (cfg.max_retries + 1) := by
  have hfe : f = fun _ => (.error (.clientError ce) : Except PyException α) := funext hf
  subst hfe
  obtain ⟨s, hs⟩ := retry_func_always_fail cfg ce u hig hre (cfg.max_retries + 1) 0 0 [] (by omega)
  rw [run_retry, hs]
  show 0 + (cfg.max_retries + 1) + 1 = 1 + (cfg.max_retries + 1)
  omega

/-- C6 amended witness: with `max_retries = 0` and an always-throttling
call, the total attempt count is `1 + (0 + 1) = 2`. -/
theorem C6_total_attempts_amended_witness :
    (run_retry cfgZeroRetries alwaysThrottle (fun _ => 0)).2.1
        = 1 + (cfgZeroRetries.max_retries + 1) :=
  C6_total_attempts_amended cfgZeroRetries ceThrottling (fun _ => 0) alwaysThrottle
    (fun _ => rfl) (by decide) (by decide)

/-- C3: every code in the built-in `DEFAULT_RETRY_ERROR_CODES` table that
is not in the ignored list is retryable under any configuration `deco`
builds, including one with caller-supplied `added_error_codes`: the code is
in `retry_on`, and a first failure carrying it makes the loop retry (at
least a second underlying call) rather than propagate. -/
theorem C3_builtin_codes_retry {α : Type} (interval : ℚ) (max_retries : ℕ)
    (backoff_rate jitter : ℚ) (mrbb : ℕ) (ignore added : List String)
    (c : String) (ce : ClientError) (f : ℕ → Except PyException α) (u : ℕ → ℚ)
    (hdef : c ∈ DEFAULT_RETRY_ERROR_CODES) (hig : c ∉ ignore)
    (hcode : ce.code = c) (hf : f 0 = .error (.clientError ce)) :
    c ∈ (deco_config interval max_retries backoff_rate jitter mrbb ignore added).retry_on ∧
    2 ≤ (run_retry (deco_config interval max_retries backoff_rate jitter mrbb ignore added)
          f u).2.1 := by
  set cfg := deco_config interval max_retries backoff_rate jitter mrbb ignore added with hcfg
  have hre : c ∈ cfg.retry_on := by
    rw [hcfg]
    exact List.mem_append.2 (Or.inr hdef)
  have hignot : c ∉ cfg.ignore_on := by
    rw [hcfg]
    show c ∉ py_list_or ignore []
    unfold py_list_or
    by_cases he : ignore = []
    · simp [he]
    · simpa [he] using hig
  refine ⟨hre, ?_⟩
  have hcond : ce.code ∈ cfg.retry_on ∧ ¬ (0 : ℕ) > cfg.max_retries := by
    constructor
    · rw [hcode]; exact hre
    · omega
  have hignot2 : ce.code ∉ cfg.ignore_on := by rw [hcode]; exact hignot
  rw [run_retry, retry_func, hf]
  dsimp only
  rw [if_neg hignot2, dif_pos hcond]
  exact retry_func_calls_lt cfg f u (0 + 1) (0 + 1)
    (if 0 > cfg.max_retries_before_backoff then [] ++ [sleep_time cfg 0 (u 0)] else [])

/-- C3 witness: `ProvisionedThroughputExceededException` with a
caller-supplied added code `MyCustomCode` and an empty ignored list is in
`retry_on`, and an underlying call failing with it is retried. -/
theorem C3_builtin_codes_retry_witness :
    "ProvisionedThroughputExceededException"
        ∈ (deco_config (1/5) 3 2 (1/2) 0 [] ["MyCustomCode"]).retry_on ∧
    2 ≤ (run_retry (deco_config (1/5) 3 2 (1/2) 0 [] ["MyCustomCode"])
          (fun _ => (.error (.clientError
            { operationName := "query",
              code := "ProvisionedThroughputExceededException",
              message := "throughput exceeded" }) : Except PyException ℕ))
          (fun _ => 0)).2.1 :=
  C3_builtin_codes_retry (1/5) 3 2 (1/2) 0 [] ["MyCustomCode"]
    "ProvisionedThroughputExceededException" _ _ (fun _ => 0)
    (by decide) (by decide) rfl rfl

/-- C10: only `ClientError` is caught by the loop (`except ClientError` at
botobackoff.py line 172).  Whatever the loop state — in particular with
retries remaining — an underlying call that raises any other exception
makes the loop propagate it immediately and unchanged: one further
underlying call, no classification, no sleep appended, no retry. -/
theorem C10_non_client_error_propagates {α : Type} (cfg : RetryConfig)
    (f : ℕ → Except PyException α) (u : ℕ → ℚ) (name : String)
    (attempts calls : ℕ) (sleeps : List ℚ)
    (hf : f calls = .error (.other name)) :
    retry_func cfg f u attempts calls sleeps = (.error (.other name), calls + 1, sleeps) := by
  rw [retry_func, hf]

/-- C10 witness: a `ValueError` raised on the very first call under the
default configuration (3 retries remaining) propagates immediately. -/
theorem C10_non_client_error_propagates_witness :
    retry_func cfgDefault (fun _ => (.error (.other "ValueError") : Except PyException ℕ))
        (fun _ => 0) 0 0 [] = (.error (.other "ValueError"), 1, []) :=
  C10_non_client_error_propagates cfgDefault _ (fun _ => 0) "ValueError" 0 0 [] rfl

/-- An underlying call that fails with `ThrottlingException` on the first
invocation and succeeds afterwards. -/
def throttleOnce : ℕ → Except PyException ℕ :=
  fun n => if n = 0 then .error (.clientError ceThrottling) else .ok 0

/-- C5 counterexample: under the default configuration
(`max_retries_before_backoff = 0`, `interval_seconds = 1/5`,
`jitter = 1/2`), a retry is performed at attempt index `0`
(`≤ max_retries_before_backoff`), yet no delay at all is applied: the loop
sleeps only when `_attempts > max_retries_before_backoff`, so the list of
applied delays is empty and in particular no applied delay lies within
`interval_seconds * [1 - jitter, 1 + jitter] = [1/10, 3/10]`. -/
theorem C5_delay_counterexample :
    run_retry cfgDefault throttleOnce (fun _ => 0) = (.ok (some 0), 2, []) ∧
    ¬ ∃ d ∈ (run_retry cfgDefault throttleOnce (fun _ => 0)).2.2,
        cfgDefault.interval_seconds * (1 - cfgDefault.jitter) ≤ d ∧
        d ≤ cfgDefault.interval_seconds * (1 + cfgDefault.jitter) := by
  have h : run_retry cfgDefault throttleOnce (fun _ => 0) = (.ok (some 0), 2, []) := by
    simp [run_retry, retry_func, cfgDefault, deco_config, py_list_or,
      DEFAULT_RETRY_ERROR_CODES, throttleOnce, ceThrottling]
  refine ⟨h, ?_⟩
  rw [h]
  rintro ⟨d, hd, -⟩
  simp at hd

/-- C5 amended: the loop applies no delay for attempt indices at most
`max_retries_before_backoff`; every delay it does apply belongs to some
attempt index `att > max_retries_before_backoff` and, when
`interval_seconds ≥ 0`, `backoff_rate ≥ 0` and every jitter draw lies in
`[-jitter, jitter]`, that delay lies within
`interval_seconds * backoff_rate ^ (att - max_retries_before_backoff) *
[1 - jitter, 1 + jitter]`. -/
theorem C5_delay_amended {α : Type} (cfg : RetryConfig)
    (f : ℕ → Except PyException α) (u : ℕ → ℚ)
    (hI : 0 ≤ cfg.interval_seconds) (hR : 0 ≤ cfg.backoff_rate)
    (hu : ∀ n, -cfg.jitter ≤ u n ∧ u n ≤ cfg.jitter) :
    ∀ d ∈ (run_retry cfg f u).2.2, ∃ att, cfg.max_retries_before_backoff < att ∧
      cfg.interval_seconds * cfg.backoff_rate ^ (att - cfg.max_retries_before_backoff)
          * (1 - cfg.jitter) ≤ d ∧
      d ≤ cfg.interval_seconds * cfg.backoff_rate ^ (att - cfg.max_retries_before_backoff)
          * (1 + cfg.jitter) := by
  intro d hd
  rcases retry_func_sleeps_spec cfg f u 0 0 [] d hd with hmem | ⟨n, att, hatt, rfl⟩
  · simp at hmem
  · refine ⟨att, hatt, ?_, ?_⟩ <;>
    · unfold sleep_time
      have hB : 0 ≤ cfg.interval_seconds
          * cfg.backoff_rate ^ (att - cfg.max_retries_before_backoff) :=
        mul_nonneg hI (pow_nonneg hR _)
      obtain ⟨h1, h2⟩ := hu n
      nlinarith [hB, h1, h2]

/-- C5 amended witness: with `max_retries = 1`, default remaining
parameters and constant jitter draw `1/4 ∈ [-1/2, 1/2]`, the single
applied delay is `1/5 * 2^1 * (1 + 1/4) = 1/2`, and it lies within the
band for attempt index `1`. -/
theorem C5_delay_amended_witness :
    ∃ att, cfgRetryOnce.max_retries_before_backoff < att ∧
      cfgRetryOnce.interval_seconds
          * cfgRetryOnce.backoff_rate ^ (att - cfgRetryOnce.max_retries_before_backoff)
          * (1 - cfgRetryOnce.jitter) ≤ (1/2 : ℚ) ∧
      (1/2 : ℚ) ≤ cfgRetryOnce.interval_seconds
          * cfgRetryOnce.backoff_rate ^ (att - cfgRetryOnce.max_retries_before_backoff)
          * (1 + cfgRetryOnce.jitter) :=
  C5_delay_amended cfgRetryOnce alwaysThrottle (fun _ => 1/4)
    (by norm_num [cfgRetryOnce, deco_config])
    (by norm_num [cfgRetryOnce, deco_config])
    (fun n => by norm_num [cfgRetryOnce, deco_config])
    (1/2)
    (by
      simp [run_retry, retry_func, cfgRetryOnce, deco_config, py_list_or,
        DEFAULT_RETRY_ERROR_CODES, alwaysThrottle, ceThrottling, sleep_time]
      norm_num)

/-- A proxy constructed with defaults except for one caller-supplied added
error code. -/
def bWithFoo : BotoBackoff :=
  { interval_seconds := 1/5, max_retries := 3, backoff_rate := 2, jitter := 1/2,
    max_retries_before_backoff := 0, added_backoff_error_codes := ["FooError"],
    ignore_errors := [] }

/-- An underlying client on which every attribute resolves to a callable
method. -/
def clientAllMethods : String → PyAttr ℕ := fun _ => .method

/-- An underlying client on which every attribute resolves to the
non-callable value `42`. -/
def clientValue42 : String → PyAttr ℕ := fun _ => .value 42

/-- C7 counterexample: an attribute access that resolves to a callable on a
proxy whose `added_error_codes` list is non-empty mutates the proxy: in
`deco`, `retry_on = added_error_codes or []` aliases the proxy's own list,
and `retry_on.extend(DEFAULT_RETRY_ERROR_CODES)` grows it in place.  After
`bWithFoo.list_buckets` the proxy's added-codes list is no longer
`["FooError"]`. -/
theorem C7_immutability_counterexample :
    (getattr_proxy clientAllMethods bWithFoo "list_buckets").2.added_backoff_error_codes
      ≠ bWithFoo.added_backoff_error_codes := by
  decide

/-- C7 amended: `with_options` with no overrides reproduces the parent's
configuration exactly, and an attribute access never changes any
configuration field other than `added_error_codes`; a callable attribute
access leaves a proxy with an empty added-codes list unchanged, but on a
proxy with a non-empty added-codes list it appends the built-in default
retry codes to that list in place (the decorator's `retry_on` aliases
it). -/
theorem C7_immutability_amended {α : Type} (b : BotoBackoff)
    (client : String → PyAttr α) (item : String)
    (hm : client item = .method) (hne : b.added_backoff_error_codes ≠ []) :
    (getattr_proxy client b item).2.added_backoff_error_codes
        = b.added_backoff_error_codes ++ DEFAULT_RETRY_ERROR_CODES ∧
    (getattr_proxy client b item).2.interval_seconds = b.interval_seconds ∧
    (getattr_proxy client b item).2.max_retries = b.max_retries ∧
    (getattr_proxy client b item).2.backoff_rate = b.backoff_rate ∧
    (getattr_proxy client b item).2.jitter = b.jitter ∧
    (getattr_proxy client b item).2.max_retries_before_backoff
        = b.max_retries_before_backoff ∧
    (getattr_proxy client b item).2.ignore_errors = b.ignore_errors ∧
    (getattr_proxy client { b with added_backoff_error_codes := [] } item).2
        = { b with added_backoff_error_codes := [] } ∧
    with_options b none none none none none none none = b := by
  refine ⟨?_, ?_, ?_, ?_, ?_, ?_, ?_, ?_, ?_⟩
  all_goals simp [getattr_proxy, hm, hne, with_options, py_rat_or, py_nat_or, py_opt_list_or]

/-- C7 amended witness: the concrete proxy `bWithFoo` under a client whose
attributes are all callable. -/
theorem C7_immutability_amended_witness :
    (getattr_proxy clientAllMethods bWithFoo "list_buckets").2.added_backoff_error_codes
        = bWithFoo.added_backoff_error_codes ++ DEFAULT_RETRY_ERROR_CODES ∧
    (getattr_proxy clientAllMethods bWithFoo "list_buckets").2.interval_seconds
        = bWithFoo.interval_seconds ∧
    (getattr_proxy clientAllMethods bWithFoo "list_buckets").2.max_retries
        = bWithFoo.max_retries ∧
    (getattr_proxy clientAllMethods bWithFoo "list_buckets").2.backoff_rate
        = bWithFoo.backoff_rate ∧
    (getattr_proxy clientAllMethods bWithFoo "list_buckets").2.jitter
        = bWithFoo.jitter ∧
    (getattr_proxy clientAllMethods bWithFoo "list_buckets").2.max_retries_before_backoff
        = bWithFoo.max_retries_before_backoff ∧
    (getattr_proxy clientAllMethods bWithFoo "list_buckets").2.ignore_errors
        = bWithFoo.ignore_errors ∧
    (getattr_proxy clientAllMethods
        { bWithFoo with added_backoff_error_codes := [] } "list_buckets").2
        = { bWithFoo with added_backoff_error_codes := [] } ∧
    with_options bWithFoo none none none none none none none = bWithFoo :=
  C7_immutability_amended bWithFoo clientAllMethods "list_buckets" rfl (by decide)

/-- C8 counterexample: `with_options` uses Python `or`, so the explicit
override `max_retries=0` on a parent with `max_retries=3` is treated as
unset: the derived proxy keeps `max_retries = 3` instead of taking `0`. -/
theorem C8_zero_override_counterexample :
    (with_options bWithFoo none (some 0) none none none none none).max_retries = 3 ∧
    (3 : ℕ) ≠ 0 := by
  decide

/-- C8 amended: in `with_options` a falsy override — numeric `0` or the
empty list — is indistinguishable from an unset one: the derived proxy
inherits the parent's value for it, exactly as when the field is left
unset (`None`); only a truthy override (a non-zero number, a non-empty
list) takes effect, and a fully-unset derivation reproduces the parent. -/
theorem C8_zero_override_amended (b : BotoBackoff) (m : ℕ) (q : ℚ)
    (hm : m ≠ 0) (hq : q ≠ 0) :
    (with_options b none (some 0) none none none none none).max_retries = b.max_retries ∧
    (with_options b (some 0) none none none none none none).interval_seconds
        = b.interval_seconds ∧
    (with_options b none none none (some 0) none none none).jitter = b.jitter ∧
    (with_options b none none none none (some 0) none none).max_retries_before_backoff
        = b.max_retries_before_backoff ∧
    (with_options b none none none none none (some []) (some [])).ignore_errors
        = b.ignore_errors ∧
    (with_options b none none none none none (some []) (some [])).added_backoff_error_codes
        = b.added_backoff_error_codes ∧
    (with_options b none (some m) none none none none none).max_retries = m ∧
    (with_options b (some q) none none none none none none).interval_seconds = q ∧
    with_options b none none none none none none none = b := by
  refine ⟨?_, ?_, ?_, ?_, ?_, ?_, ?_, ?_, ?_⟩
  all_goals simp [with_options, py_rat_or, py_nat_or, py_opt_list_or, hm, hq]

/-- C8 amended witness: the concrete proxy `bWithFoo` with overrides `5`
and `7/10`. -/
theorem C8_zero_override_amended_witness :
    (with_options bWithFoo none (some 0) none none none none none).max_retries
        = bWithFoo.max_retries ∧
    (with_options bWithFoo (some 0) none none none none none none).interval_seconds
        = bWithFoo.interval_seconds ∧
    (with_options bWithFoo none none none (some 0) none none none).jitter
        = bWithFoo.jitter ∧
    (with_options bWithFoo none none none none (some 0) none none).max_retries_before_backoff
        = bWithFoo.max_retries_before_backoff ∧
    (with_options bWithFoo none none none none none (some []) (some [])).ignore_errors
        = bWithFoo.ignore_errors ∧
    (with_options bWithFoo none none none none none
        (some []) (some [])).added_backoff_error_codes
        = bWithFoo.added_backoff_error_codes ∧
    (with_options bWithFoo none (some 5) none none none none none).max_retries = 5 ∧
    (with_options bWithFoo (some (7/10)) none none none none none none).interval_seconds
        = 7/10 ∧
    with_options bWithFoo none none none none none none none = bWithFoo :=
  C8_zero_override_amended bWithFoo 5 (7/10) (by decide) (by norm_num)

/-- C9: an attribute that resolves on the underlying client to a
non-callable value is returned unchanged by `__getattr__` — no decorator is
installed, no retry loop, classification or sleep is involved, and the
proxy is untouched. -/
theorem C9_passthrough {α : Type} (b : BotoBackoff) (client : String → PyAttr α)
    (item : String) (v : α) (hv : client item = .value v) :
    getattr_proxy client b item = (.passthrough v, b) := by
  simp [getattr_proxy, hv]

/-- C9 witness: a client attribute holding the plain value `42` is passed
through unchanged. -/
theorem C9_passthrough_witness :
    getattr_proxy clientValue42 bWithFoo "region_name" = (.passthrough 42, bWithFoo) :=
  C9_passthrough bWithFoo clientValue42 "region_name" 42 rfl
